import Mathlib

/-!
Verification of the timing-alignment and multi-stage scheduling logic of
src/python_script/VII.py (a polyphony-RNN chaining script).

Times are modelled as exact rationals (Python float arithmetic is read as
real arithmetic, which is what the specification's exactness statements are
about).  Exceptions raised by the script are modelled with Except.
-/

namespace VII

/-- Errors the script can raise while computing windows: the bare Exception
for multiple tempos (VII.py line 121), Python's ZeroDivisionError from the
seconds-per-step division (line 126), and the bare Exception carrying the
insufficient-total-length message (lines 150-153). -/
inductive GenError where
  | multipleTempos : GenError
  | zeroDivision : GenError
  | insufficientLength : String → GenError
  deriving DecidableEq

/-- A time window in seconds, as passed to generate_sections (lines 180-182). -/
structure Window where
  start_time : ℚ
  end_time : ℚ
  deriving DecidableEq

/-- The part of a Magenta NoteSequence the windowing logic reads: the tempo
records (each contributing a qpm value) and the total time in seconds. -/
structure NoteSeq where
  tempos : List ℚ
  total_time : ℚ
  deriving DecidableEq

/-- Tempo override, VII.py lines 119-122: if the primer has tempos, raise
when there are more than one, otherwise replace the caller-supplied qpm by
the primer's single tempo. -/
def effectiveQpm (primer : NoteSeq) (qpm : ℚ) : Except GenError ℚ :=
  match primer.tempos with
  | [] => Except.ok qpm
  | [t] => Except.ok t
  | _ :: _ :: _ => Except.error GenError.multipleTempos

/-- Seconds per step, VII.py line 126: 60.0 / qpm / steps_per_quarter.
Python raises ZeroDivisionError at either division by zero; no other
validation of the time base exists in the source. -/
def secondsPerStep (qpm : ℚ) (steps_per_quarter : ℤ) : Except GenError ℚ :=
  if qpm = 0 then Except.error GenError.zeroDivision
  else if (steps_per_quarter : ℚ) = 0 then Except.error GenError.zeroDivision
  else Except.ok (60 / qpm / (steps_per_quarter : ℚ))

/-- VII.py lines 131-132: math.ceil(primer_sequence.total_time / seconds_per_step). -/
def primer_sequence_length_steps (total_time seconds_per_step : ℚ) : ℤ :=
  ⌈total_time / seconds_per_step⌉

/-- VII.py line 133: primer_sequence_length_steps * seconds_per_step. -/
def primer_sequence_length_time (total_time seconds_per_step : ℚ) : ℚ :=
  (primer_sequence_length_steps total_time seconds_per_step : ℚ) * seconds_per_step

/-- VII.py line 140: 0.00001 if primer_sequence_length_time > 0 else 0. -/
def primer_end_adjust (total_time seconds_per_step : ℚ) : ℚ :=
  if 0 < primer_sequence_length_time total_time seconds_per_step then 1/100000 else 0

/-- VII.py line 141: the primer window starts at 0. -/
def primer_start_time : ℚ := 0

/-- VII.py lines 142-144: primer_start_time + primer_sequence_length_time
- primer_end_adjust. -/
def primer_end_time (total_time seconds_per_step : ℚ) : ℚ :=
  primer_start_time + primer_sequence_length_time total_time seconds_per_step
    - primer_end_adjust total_time seconds_per_step

/-- VII.py line 148: total_length_steps - primer_sequence_length_steps. -/
def generation_length_steps (total_length_steps : ℤ)
    (total_time seconds_per_step : ℚ) : ℤ :=
  total_length_steps - primer_sequence_length_steps total_time seconds_per_step

/-- VII.py line 154: generation_length_steps * seconds_per_step. -/
def generation_length_time (total_length_steps : ℤ)
    (total_time seconds_per_step : ℚ) : ℚ :=
  (generation_length_steps total_length_steps total_time seconds_per_step : ℚ)
    * seconds_per_step

/-- VII.py line 160: the generation window starts at the primer window end. -/
def generation_start_time (total_time seconds_per_step : ℚ) : ℚ :=
  primer_end_time total_time seconds_per_step

/-- VII.py lines 161-163: generation_start_time + generation_length_time
+ primer_end_adjust. -/
def generation_end_time (total_length_steps : ℤ)
    (total_time seconds_per_step : ℚ) : ℚ :=
  generation_start_time total_time seconds_per_step
    + generation_length_time total_length_steps total_time seconds_per_step
    + primer_end_adjust total_time seconds_per_step

/-- The message of the insufficient-length Exception, VII.py lines 150-153;
it embeds str(total_length_steps) and str(primer_sequence_length_steps). -/
def insufficientLengthMsg (total_length_steps primer_steps : ℤ) : String :=
  "Total length in steps too small " ++ "(" ++ toString total_length_steps ++ ")"
    ++ ", needs to be at least one bar bigger than primer "
    ++ "(" ++ toString primer_steps ++ ")"

/-- All quantities the windowing section of generate computes (VII.py lines
126-163), bundled so each claim can speak about them. -/
structure WindowResult where
  qpm : ℚ
  seconds_per_step : ℚ
  primer_sequence_length_steps : ℤ
  primer_sequence_length_time : ℚ
  primer_end_adjust : ℚ
  primerWindow : Window
  generation_length_steps : ℤ
  generation_length_time : ℚ
  generationWindow : Window
  deriving DecidableEq

/-- The WindowResult produced when no error is raised, with every field the
expression VII.py lines 126-163 assign to the corresponding variable. -/
def windowResultOf (qpm seconds_per_step total_time : ℚ)
    (total_length_steps : ℤ) : WindowResult :=
  { qpm := qpm
    seconds_per_step := seconds_per_step
    primer_sequence_length_steps :=
      primer_sequence_length_steps total_time seconds_per_step
    primer_sequence_length_time :=
      primer_sequence_length_time total_time seconds_per_step
    primer_end_adjust := primer_end_adjust total_time seconds_per_step
    primerWindow := ⟨primer_start_time, primer_end_time total_time seconds_per_step⟩
    generation_length_steps :=
      generation_length_steps total_length_steps total_time seconds_per_step
    generation_length_time :=
      generation_length_time total_length_steps total_time seconds_per_step
    generationWindow :=
      ⟨generation_start_time total_time seconds_per_step,
       generation_end_time total_length_steps total_time seconds_per_step⟩ }

/-- The window computation after qpm and seconds_per_step are fixed (VII.py
lines 131-163): raise the insufficient-length Exception when
generation_length_steps <= 0 (lines 149-153), otherwise produce every
windowing quantity. -/
def calcWindows (qpm seconds_per_step total_time : ℚ)
    (total_length_steps : ℤ) : Except GenError WindowResult :=
  if generation_length_steps total_length_steps total_time seconds_per_step ≤ 0 then
    Except.error (GenError.insufficientLength
      (insufficientLengthMsg total_length_steps
        (primer_sequence_length_steps total_time seconds_per_step)))
  else Except.ok (windowResultOf qpm seconds_per_step total_time total_length_steps)

/-- The whole windowing pipeline of generate, VII.py lines 119-163: tempo
override, seconds-per-step, then the window calculation. -/
def computeWindows (primer : NoteSeq) (total_length_steps steps_per_quarter : ℤ)
    (qpm0 : ℚ) : Except GenError WindowResult :=
  match effectiveQpm primer qpm0 with
  | Except.error e => Except.error e
  | Except.ok qpm =>
    match secondsPerStep qpm steps_per_quarter with
    | Except.error e => Except.error e
    | Except.ok sps => calcWindows qpm sps primer.total_time total_length_steps

/-- The generator options assembled in VII.py lines 172-182. -/
structure GeneratorOptions where
  temperature : ℚ
  beam_size : ℤ
  branch_factor : ℤ
  steps_per_iteration : ℤ
  condition_on_primer : Bool
  no_inject_primer_during_generation : Bool
  generate_section : Window
  deriving DecidableEq

/-- What generate leaves behind: the midi files written (name, sequence) in
order, and the sequence it returns. -/
structure GenerateResult where
  written : List (String × NoteSeq)
  returned : NoteSeq
  deriving DecidableEq

/-- VII.py generate, lines 119-195, with the external collaborators
abstracted: generator_generate stands for generator.generate (the opaque
model), the primer sequence is the one loaded at lines 111-115, and writing
the midi file (line 191) is recorded in the written list. -/
def generate (generator_generate : NoteSeq → GeneratorOptions → NoteSeq)
    (midi_filename : String) (total_length_steps steps_per_quarter : ℤ)
    (primer_sequence : NoteSeq) (qpm : ℚ)
    (condition_on_primer inject_primer_during_generation : Bool)
    (temperature : ℚ) (beam_size branch_factor steps_per_iteration : ℤ) :
    Except GenError GenerateResult :=
  match computeWindows primer_sequence total_length_steps steps_per_quarter qpm with
  | Except.error e => Except.error e
  | Except.ok r =>
    let generator_options : GeneratorOptions :=
      { temperature := temperature
        beam_size := beam_size
        branch_factor := branch_factor
        steps_per_iteration := steps_per_iteration
        condition_on_primer := condition_on_primer
        no_inject_primer_during_generation := !inject_primer_during_generation
        generate_section := r.generationWindow }
    let sequence := generator_generate primer_sequence generator_options
    Except.ok { written := [(midi_filename, sequence)], returned := sequence }

/-- The module-level schedule of VII.py line 201: per-stage bundle names. -/
def bundles : List String :=
  ["angry.mag", "wativ.mag", "wativ.mag", "neutral.mag", "wativ.mag", "duo.mag"]

/-- VII.py line 202: per-stage output midi filenames. -/
def filenames : List String :=
  ["primer.mid", "primer1.mid", "primer2.mid", "primer3.mid", "primer4.mid",
   "VIII.machine_music_wativ_img_2440_9.mid"]

/-- VII.py line 204: per-stage bar counts. -/
def bars : List ℤ := [12, 8, 8, 8, 4, 4]

/-- VII.py line 205: per-stage steps-per-quarter values. -/
def s_p_q : List ℤ := [4, 16, 32, 32, 6, 2]

/-- The loop of VII.py lines 206-210: a running total of bars, each stage
contributing totalBars * s_p_q[idx] * 4 steps. -/
def stepsFrom (totalBars : ℤ) : List (ℤ × ℤ) → List ℤ
  | [] => []
  | (b, spq) :: rest => ((totalBars + b) * spq * 4) :: stepsFrom (totalBars + b) rest

/-- VII.py line 203 and the loop of lines 206-210: the per-stage total
lengths in steps. -/
def steps : List ℤ := stepsFrom 0 (bars.zip s_p_q)

/-- The tokens written in the list literal of VII.py line 211, exactly as
they appear in the source. -/
def conditionTokens : List String :=
  ["False", "False", "False", "False", "FoTheTrue", "False"]

/-- Python name resolution for a boolean token at module scope of VII.py:
only True and False are bound there; any other name raises NameError,
modelled as none. -/
def evalBoolName (s : String) : Option Bool :=
  if s = "True" then some true
  else if s = "False" then some false
  else none

/-- Evaluation of the conditions list literal of VII.py line 211: the whole
list evaluates only if every token resolves. -/
def conditions : Option (List Bool) := conditionTokens.mapM evalBoolName

/-- VII.py line 212: per-stage primer-injection flags. -/
def injections : List Bool := [true, true, false, true, true, true]

/-- VII.py line 213: per-stage temperatures. -/
def temperatures : List ℚ := [1, 1, 1, 1, 1, 7/5]

/-- VII.py line 214: per-stage primer filenames. -/
def primers : List String :=
  ["wativ_img_2440.mid", "primer.mid", "primer1.mid", "primer2.mid",
   "primer3.mid", "primer4.mid"]


theorem computeWindows_ok_elim (primer : NoteSeq) (total_length_steps steps_per_quarter : ℤ)
    (qpm0 : ℚ) (r : WindowResult)
    (h : computeWindows primer total_length_steps steps_per_quarter qpm0 = Except.ok r) :
    ∃ qpm sps, effectiveQpm primer qpm0 = Except.ok qpm ∧
      secondsPerStep qpm steps_per_quarter = Except.ok sps ∧
      0 < generation_length_steps total_length_steps primer.total_time sps ∧
      r = windowResultOf qpm sps primer.total_time total_length_steps := by
  unfold computeWindows at h
  split at h
  next e heq => simp at h
  next qpm heq =>
    split at h
    next e heq2 => simp at h
    next sps heq2 =>
      unfold calcWindows at h
      split_ifs at h with hg
      exact ⟨qpm, sps, heq, heq2, by omega, (Except.ok.inj h).symm⟩

theorem secondsPerStep_ok_elim (qpm : ℚ) (spq : ℤ) (sps : ℚ)
    (h : secondsPerStep qpm spq = Except.ok sps) :
    qpm ≠ 0 ∧ (spq : ℚ) ≠ 0 ∧ sps = 60 / qpm / (spq : ℚ) := by
  unfold secondsPerStep at h
  split_ifs at h with h1 h2
  exact ⟨h1, h2, (Except.ok.inj h).symm⟩


theorem computeWindows_qpm_error (primer : NoteSeq) (total spq : ℤ) (qpm0 : ℚ) (e : GenError)
    (hq : effectiveQpm primer qpm0 = Except.error e) :
    computeWindows primer total spq qpm0 = Except.error e := by
  unfold computeWindows
  rw [hq]

theorem computeWindows_sps_error (primer : NoteSeq) (total spq : ℤ) (qpm0 qpm : ℚ) (e : GenError)
    (hq : effectiveQpm primer qpm0 = Except.ok qpm)
    (hs : secondsPerStep qpm spq = Except.error e) :
    computeWindows primer total spq qpm0 = Except.error e := by
  unfold computeWindows
  rw [hq]
  show (match secondsPerStep qpm spq with
    | Except.error e => Except.error e
    | Except.ok sps => calcWindows qpm sps primer.total_time total) = Except.error e
  rw [hs]

theorem computeWindows_eq_calc (primer : NoteSeq) (total spq : ℤ) (qpm0 qpm sps : ℚ)
    (hq : effectiveQpm primer qpm0 = Except.ok qpm)
    (hs : secondsPerStep qpm spq = Except.ok sps) :
    computeWindows primer total spq qpm0 = calcWindows qpm sps primer.total_time total := by
  unfold computeWindows
  rw [hq]
  show (match secondsPerStep qpm spq with
    | Except.error e => Except.error e
    | Except.ok sps => calcWindows qpm sps primer.total_time total) = calcWindows qpm sps primer.total_time total
  rw [hs]

theorem secondsPerStep_ne_multi (qpm : ℚ) (spq : ℤ) :
    secondsPerStep qpm spq ≠ Except.error GenError.multipleTempos := by
  unfold secondsPerStep
  split_ifs <;> simp

theorem calcWindows_ne_multi (qpm sps t : ℚ) (total : ℤ) :
    calcWindows qpm sps t total ≠ Except.error GenError.multipleTempos := by
  unfold calcWindows
  split_ifs <;> simp

theorem effectiveQpm_multi_iff (primer : NoteSeq) (qpm0 : ℚ) :
    effectiveQpm primer qpm0 = Except.error GenError.multipleTempos
      ↔ 1 < primer.tempos.length := by
  unfold effectiveQpm
  rcases primer.tempos with _ | ⟨t, _ | ⟨t2, rest⟩⟩ <;> simp


/-- Concrete evaluation of the pipeline at the spec's Scenario A input:
qpm 120, steps_per_quarter 4, empty primer, total 48 steps. -/
theorem computeWindows_scenarioA :
    computeWindows ⟨[], 0⟩ 48 4 120 = Except.ok (windowResultOf 120 (1/8) 0 48) := by
  norm_num [computeWindows, effectiveQpm, secondsPerStep, calcWindows, windowResultOf,
    generation_length_steps, primer_sequence_length_steps, primer_sequence_length_time,
    primer_end_adjust, primer_start_time, primer_end_time, generation_length_time,
    generation_start_time, generation_end_time]

/-- Concrete evaluation of the pipeline at the spec's Scenario B input:
qpm 120, steps_per_quarter 4, primer of 2 seconds, total 64 steps. -/
theorem computeWindows_scenarioB :
    computeWindows ⟨[], 2⟩ 64 4 120 = Except.ok (windowResultOf 120 (1/8) 2 64) := by
  norm_num [computeWindows, effectiveQpm, secondsPerStep, calcWindows, windowResultOf,
    generation_length_steps, primer_sequence_length_steps, primer_sequence_length_time,
    primer_end_adjust, primer_start_time, primer_end_time, generation_length_time,
    generation_start_time, generation_end_time]

/-- C1: for any primer, time base and requested total length accepted without
error, the generation length in steps is the total minus the primer steps
(so the two sum back to the total), the generation length in time is that
step count times seconds-per-step, the generation window runs from the
primer window's end to that end plus generation time plus epsilon, and the
two windows tile exactly total_length_steps * seconds_per_step seconds with
no gap: the primer window starts at 0, the generation window starts where
the primer window ends, and the generation window ends at the total. -/
theorem windows_tile_total_length (primer : NoteSeq)
    (total_length_steps steps_per_quarter : ℤ) (qpm0 : ℚ) (r : WindowResult)
    (h : computeWindows primer total_length_steps steps_per_quarter qpm0
      = Except.ok r) :
    r.generation_length_steps = total_length_steps - r.primer_sequence_length_steps ∧
    r.primer_sequence_length_steps + r.generation_length_steps = total_length_steps ∧
    r.generation_length_time = (r.generation_length_steps : ℚ) * r.seconds_per_step ∧
    r.generationWindow.start_time = r.primerWindow.end_time ∧
    r.generationWindow.end_time
      = r.primerWindow.end_time + r.generation_length_time + r.primer_end_adjust ∧
    r.primerWindow.start_time = 0 ∧
    r.generationWindow.end_time = (total_length_steps : ℚ) * r.seconds_per_step ∧
    (r.primerWindow.end_time - r.primerWindow.start_time)
      + (r.generationWindow.end_time - r.generationWindow.start_time)
      = (total_length_steps : ℚ) * r.seconds_per_step := by
  obtain ⟨qpm, sps, hq, hs, hg, hr⟩ :=
    computeWindows_ok_elim primer total_length_steps steps_per_quarter qpm0 r h
  subst hr
  simp only [windowResultOf]
  refine ⟨by simp [generation_length_steps], by simp [generation_length_steps], rfl, rfl,
    ?_, rfl, ?_, ?_⟩
  · simp only [generation_end_time, generation_start_time]
  · simp only [generation_end_time, generation_start_time, generation_length_time,
      generation_length_steps, primer_end_time, primer_start_time,
      primer_sequence_length_time]
    push_cast
    ring
  · simp only [generation_end_time, generation_start_time, generation_length_time,
      generation_length_steps, primer_end_time, primer_start_time,
      primer_sequence_length_time]
    push_cast
    ring

/-- Witness: at the Scenario B input the primer and generation step counts
sum to the requested 64 steps. -/
theorem windows_tile_total_length_witness :
    (windowResultOf 120 (1/8) 2 64).primer_sequence_length_steps
      + (windowResultOf 120 (1/8) 2 64).generation_length_steps = 64 :=
  (windows_tile_total_length ⟨[], 2⟩ 64 4 120 (windowResultOf 120 (1/8) 2 64)
    computeWindows_scenarioB).2.1

/-- C2: for any primer and time base accepted without error, the primer
length in steps is the ceiling of the primer's total time over
seconds-per-step, the primer length in time is that step count times
seconds-per-step, epsilon is 1e-5 exactly when the primer length time is
positive and 0 otherwise, the primer window is [0, primer length time -
epsilon], and an empty primer (total_time 0) yields primer window [0, 0]. -/
theorem primer_window_spec (primer : NoteSeq)
    (total_length_steps steps_per_quarter : ℤ) (qpm0 : ℚ) (r : WindowResult)
    (h : computeWindows primer total_length_steps steps_per_quarter qpm0
      = Except.ok r) :
    r.primer_sequence_length_steps = ⌈primer.total_time / r.seconds_per_step⌉ ∧
    r.primer_sequence_length_time
      = (r.primer_sequence_length_steps : ℚ) * r.seconds_per_step ∧
    r.primer_end_adjust
      = (if 0 < r.primer_sequence_length_time then 1/100000 else 0) ∧
    r.primerWindow.start_time = 0 ∧
    r.primerWindow.end_time = r.primer_sequence_length_time - r.primer_end_adjust ∧
    (primer.total_time = 0 → r.primerWindow = ⟨0, 0⟩) := by
  obtain ⟨qpm, sps, hq, hs, hg, hr⟩ :=
    computeWindows_ok_elim primer total_length_steps steps_per_quarter qpm0 r h
  subst hr
  simp only [windowResultOf]
  refine ⟨rfl, rfl, rfl, rfl,
    by simp [primer_end_time, primer_start_time], ?_⟩
  intro ht
  simp [primer_end_time, primer_start_time, primer_sequence_length_time,
    primer_sequence_length_steps, primer_end_adjust, ht]

/-- Witness: at the Scenario B input the primer window is
[0, 2 - 1e-5] = [0, 1.99999]. -/
theorem primer_window_spec_witness :
    (windowResultOf 120 (1/8) 2 64).primerWindow.end_time
      = (windowResultOf 120 (1/8) 2 64).primer_sequence_length_time
        - (windowResultOf 120 (1/8) 2 64).primer_end_adjust :=
  (primer_window_spec ⟨[], 2⟩ 64 4 120 (windowResultOf 120 (1/8) 2 64)
    computeWindows_scenarioB).2.2.2.2.1


/-- C3: once the tempo override and the seconds-per-step division have
succeeded, the insufficient-length Exception (with its exact message) is
raised iff total_length_steps - primer_sequence_length_steps <= 0; in that
case the whole generate call fails with the same error, so no generation
window is produced and the external generator is never invoked; and the
message embeds both the requested total and the computed primer steps. -/
theorem insufficient_length_error_iff (primer : NoteSeq)
    (total_length_steps steps_per_quarter : ℤ) (qpm0 qpm sps : ℚ)
    (hq : effectiveQpm primer qpm0 = Except.ok qpm)
    (hs : secondsPerStep qpm steps_per_quarter = Except.ok sps) :
    (computeWindows primer total_length_steps steps_per_quarter qpm0
        = Except.error (GenError.insufficientLength
            (insufficientLengthMsg total_length_steps
              (primer_sequence_length_steps primer.total_time sps)))
      ↔ total_length_steps - primer_sequence_length_steps primer.total_time sps ≤ 0) ∧
    (total_length_steps - primer_sequence_length_steps primer.total_time sps ≤ 0 →
      ∀ (generator_generate : NoteSeq → GeneratorOptions → NoteSeq)
        (midi_filename : String) (condition inject : Bool) (temperature : ℚ)
        (beam_size branch_factor steps_per_iteration : ℤ),
        generate generator_generate midi_filename total_length_steps
            steps_per_quarter primer qpm0 condition inject temperature
            beam_size branch_factor steps_per_iteration
          = Except.error (GenError.insufficientLength
              (insufficientLengthMsg total_length_steps
                (primer_sequence_length_steps primer.total_time sps)))) ∧
    (∃ a b c : String,
      insufficientLengthMsg total_length_steps
          (primer_sequence_length_steps primer.total_time sps)
        = a ++ toString total_length_steps ++ b
            ++ toString (primer_sequence_length_steps primer.total_time sps) ++ c) := by
  have hcw := computeWindows_eq_calc primer total_length_steps steps_per_quarter
    qpm0 qpm sps hq hs
  refine ⟨?_, ?_, ?_⟩
  · rw [hcw]
    unfold calcWindows
    split_ifs with hgs
    · simp only [generation_length_steps] at hgs
      exact ⟨fun _ => hgs, fun _ => rfl⟩
    · simp only [generation_length_steps] at hgs
      exact ⟨fun he => by simp at he, fun hle => absurd hle hgs⟩
  · intro hle generator_generate midi_filename condition inject temperature
      beam_size branch_factor steps_per_iteration
    unfold generate
    rw [hcw]
    unfold calcWindows
    rw [if_pos (show generation_length_steps total_length_steps primer.total_time sps ≤ 0
      from hle)]
  · exact ⟨"Total length in steps too small " ++ "(",
      ")" ++ ", needs to be at least one bar bigger than primer " ++ "(", ")",
      by simp [insufficientLengthMsg, String.append_assoc]⟩

/-- Witness: Scenario C (primer of 2 seconds, total 16 steps at qpm 120,
steps_per_quarter 4) raises the insufficient-length Exception. -/
theorem insufficient_length_error_iff_witness :
    computeWindows ⟨[], 2⟩ 16 4 120
      = Except.error (GenError.insufficientLength
          (insufficientLengthMsg 16 (primer_sequence_length_steps 2 (1/8)))) :=
  (insufficient_length_error_iff ⟨[], 2⟩ 16 4 120 120 (1/8)
    (by norm_num [effectiveQpm])
    (by norm_num [secondsPerStep])).1.mpr
    (by norm_num [primer_sequence_length_steps])

/-- C4: a single tempo record on the primer overrides the caller-supplied
qpm, an absent tempo leaves the caller-supplied qpm unchanged, and the
multiple-tempos Exception is raised iff the primer carries more than one
tempo record, in which case no window is computed. -/
theorem tempo_override_and_multiple_tempos (primer : NoteSeq)
    (total_length_steps steps_per_quarter : ℤ) (qpm0 : ℚ) :
    (∀ r, computeWindows primer total_length_steps steps_per_quarter qpm0
        = Except.ok r →
      (∀ t, primer.tempos = [t] → r.qpm = t) ∧
      (primer.tempos = [] → r.qpm = qpm0)) ∧
    (computeWindows primer total_length_steps steps_per_quarter qpm0
        = Except.error GenError.multipleTempos
      ↔ 1 < primer.tempos.length) := by
  constructor
  · intro r h
    obtain ⟨qpm, sps, hq, hs, hg, hr⟩ :=
      computeWindows_ok_elim primer total_length_steps steps_per_quarter qpm0 r h
    subst hr
    constructor
    · intro t ht
      simp only [effectiveQpm, ht] at hq
      simpa [windowResultOf] using (Except.ok.inj hq).symm
    · intro ht
      simp only [effectiveQpm, ht] at hq
      simpa [windowResultOf] using (Except.ok.inj hq).symm
  · constructor
    · intro he
      cases hq : effectiveQpm primer qpm0 with
      | error e =>
        rw [computeWindows_qpm_error primer total_length_steps steps_per_quarter
          qpm0 e hq] at he
        rw [Except.error.inj he] at hq
        exact (effectiveQpm_multi_iff primer qpm0).mp hq
      | ok qpm =>
        cases hs : secondsPerStep qpm steps_per_quarter with
        | error e =>
          rw [computeWindows_sps_error primer total_length_steps steps_per_quarter
            qpm0 qpm e hq hs] at he
          rw [Except.error.inj he] at hs
          exact absurd hs (secondsPerStep_ne_multi qpm steps_per_quarter)
        | ok sps =>
          rw [computeWindows_eq_calc primer total_length_steps steps_per_quarter
            qpm0 qpm sps hq hs] at he
          exact absurd he (calcWindows_ne_multi qpm sps primer.total_time
            total_length_steps)
    · intro hlen
      exact computeWindows_qpm_error primer total_length_steps steps_per_quarter
        qpm0 GenError.multipleTempos
        ((effectiveQpm_multi_iff primer qpm0).mpr hlen)

/-- Witness: a primer with two tempo records (90 and 100) raises the
multiple-tempos Exception, and with the single tempo 90 the effective qpm
of the computed windows is 90, overriding the caller's 120. -/
theorem tempo_override_and_multiple_tempos_witness :
    computeWindows ⟨[90, 100], 0⟩ 48 4 120 = Except.error GenError.multipleTempos ∧
    (windowResultOf 90 (1/6) 0 48).qpm = 90 := by
  constructor
  · exact (tempo_override_and_multiple_tempos ⟨[90, 100], 0⟩ 48 4 120).2.mpr
      (by simp)
  · exact ((tempo_override_and_multiple_tempos ⟨[90], 0⟩ 48 4 120).1
      (windowResultOf 90 (1/6) 0 48)
      (by norm_num [computeWindows, effectiveQpm, secondsPerStep, calcWindows,
        windowResultOf, generation_length_steps, primer_sequence_length_steps])).1
      90 rfl


/-- Counterexample to the claim that a non-positive time base fails with an
error: qpm -120 (steps_per_quarter 4) is accepted and yields -1/8 seconds
per step; the result is an ok value, not an error of any kind. -/
theorem negative_qpm_not_rejected :
    secondsPerStep (-120) 4 = Except.ok (-(1/8)) ∧ ((-120 : ℚ) < 0) := by
  constructor
  · norm_num [secondsPerStep]
  · norm_num

/-- C6 amended: for qpm > 0 and steps_per_quarter > 0, seconds-per-step is
60/(qpm*steps_per_quarter), strictly positive; the computation fails (with
Python's ZeroDivisionError — the source has no InvalidTimeBaseError) iff
qpm = 0 or steps_per_quarter = 0, so negative time bases are accepted. -/
theorem seconds_per_step_spec (qpm : ℚ) (steps_per_quarter : ℤ) :
    (0 < qpm → 0 < steps_per_quarter →
      secondsPerStep qpm steps_per_quarter
        = Except.ok (60 / (qpm * (steps_per_quarter : ℚ))) ∧
      0 < 60 / (qpm * (steps_per_quarter : ℚ))) ∧
    (secondsPerStep qpm steps_per_quarter = Except.error GenError.zeroDivision
      ↔ qpm = 0 ∨ steps_per_quarter = 0) := by
  constructor
  · intro hq hs
    have hq0 : ¬ qpm = 0 := ne_of_gt hq
    have hsq : (0 : ℚ) < (steps_per_quarter : ℚ) := by exact_mod_cast hs
    have hs0 : ¬ ((steps_per_quarter : ℚ)) = 0 := ne_of_gt hsq
    constructor
    · unfold secondsPerStep
      rw [if_neg hq0, if_neg hs0, div_div]
    · positivity
  · unfold secondsPerStep
    split_ifs with h1 h2
    · simp [h1]
    · have : steps_per_quarter = 0 := by exact_mod_cast h2
      simp [this]
    · have : ¬ steps_per_quarter = 0 := by
        intro h0
        rw [h0] at h2
        norm_num at h2
      simp [h1, this]

/-- Witness: at qpm 120 and steps_per_quarter 4 the seconds-per-step is
60/480 = 1/8, strictly positive. -/
theorem seconds_per_step_spec_witness :
    secondsPerStep 120 4 = Except.ok (60 / ((120 : ℚ) * ((4 : ℤ) : ℚ))) ∧
    0 < 60 / ((120 : ℚ) * ((4 : ℤ) : ℚ)) :=
  (seconds_per_step_spec 120 4).1 (by norm_num) (by norm_num)

/-- Counterexample to the exact-width claim: at the Scenario B input (primer
of 2 seconds, total 64 steps, qpm 120, steps_per_quarter 4) the primer
length time is positive, yet the generation window is [1.99999, 8], whose
width 6.00001 differs from the generation length time 6 by the epsilon. -/
theorem generation_window_width_exceeds_generation_time :
    computeWindows ⟨[], 2⟩ 64 4 120 = Except.ok (windowResultOf 120 (1/8) 2 64) ∧
    0 < (windowResultOf 120 (1/8) 2 64).primer_sequence_length_time ∧
    (windowResultOf 120 (1/8) 2 64).generationWindow.end_time
        - (windowResultOf 120 (1/8) 2 64).generationWindow.start_time
      ≠ (windowResultOf 120 (1/8) 2 64).generation_length_time := by
  refine ⟨computeWindows_scenarioB, ?_, ?_⟩ <;>
    norm_num [windowResultOf, primer_sequence_length_time,
      primer_sequence_length_steps, generation_length_time,
      generation_length_steps, generation_start_time, generation_end_time,
      primer_end_time, primer_start_time, primer_end_adjust]

/-- C7 amended: for any accepted input whose primer length time is positive,
the generation window starts exactly at the primer window's end (no gap),
its width is generation_length_time + 1e-5 (the leading epsilon widens the
window rather than cancelling), and its end lands exactly on
primer_length_time + generation_length_time, so the epsilon causes no drift
of the window's end. -/
theorem generation_window_alignment (primer : NoteSeq)
    (total_length_steps steps_per_quarter : ℤ) (qpm0 : ℚ) (r : WindowResult)
    (h : computeWindows primer total_length_steps steps_per_quarter qpm0
      = Except.ok r)
    (hp : 0 < r.primer_sequence_length_time) :
    r.generationWindow.start_time = r.primerWindow.end_time ∧
    r.generationWindow.end_time - r.generationWindow.start_time
      = r.generation_length_time + 1/100000 ∧
    r.generationWindow.end_time
      = r.primer_sequence_length_time + r.generation_length_time := by
  obtain ⟨qpm, sps, hq, hs, hg, hr⟩ :=
    computeWindows_ok_elim primer total_length_steps steps_per_quarter qpm0 r h
  subst hr
  simp only [windowResultOf] at hp ⊢
  have ha : primer_end_adjust primer.total_time sps = 1/100000 := by
    unfold primer_end_adjust
    exact if_pos hp
  refine ⟨rfl, ?_, ?_⟩
  · simp only [generation_end_time, generation_start_time, ha]
    ring
  · simp only [generation_end_time, generation_start_time, primer_end_time,
      primer_start_time]
    ring

/-- Witness: at the Scenario B input the generation window width is the
generation length time plus the 1e-5 epsilon. -/
theorem generation_window_alignment_witness :
    (windowResultOf 120 (1/8) 2 64).generationWindow.end_time
        - (windowResultOf 120 (1/8) 2 64).generationWindow.start_time
      = (windowResultOf 120 (1/8) 2 64).generation_length_time + 1/100000 :=
  (generation_window_alignment ⟨[], 2⟩ 64 4 120 (windowResultOf 120 (1/8) 2 64)
    computeWindows_scenarioB
    (by norm_num [windowResultOf, primer_sequence_length_time,
      primer_sequence_length_steps])).2.1

/-- Counterexample to Scenario A's stated window: with qpm 120,
steps_per_quarter 4, an empty primer and total 48 steps, the epsilon is 0
(empty primer), so the generation window is [0, 6], not [0, 6.00001]. -/
theorem scenario_a_counterexample :
    computeWindows ⟨[], 0⟩ 48 4 120 = Except.ok (windowResultOf 120 (1/8) 0 48) ∧
    (windowResultOf 120 (1/8) 0 48).generationWindow = ⟨0, 6⟩ ∧
    (⟨0, 6⟩ : Window) ≠ ⟨0, 600001/100000⟩ := by
  refine ⟨computeWindows_scenarioA, ?_, ?_⟩ <;>
    norm_num [windowResultOf, primer_sequence_length_time,
      primer_sequence_length_steps, generation_length_time,
      generation_length_steps, generation_start_time, generation_end_time,
      primer_end_time, primer_start_time, primer_end_adjust, Window.mk.injEq]

/-- C8 amended: Scenario A (qpm 120, steps_per_quarter 4, empty primer,
total 48 steps) gives seconds_per_step 1/8, primer steps 0, generation
steps 48, and generation window [0, 6]: the epsilon is 0 for an empty
primer, so no 1e-5 is appended at the window end. -/
theorem scenario_a_exact_values :
    computeWindows ⟨[], 0⟩ 48 4 120 = Except.ok (windowResultOf 120 (1/8) 0 48) ∧
    (windowResultOf 120 (1/8) 0 48).seconds_per_step = 1/8 ∧
    (windowResultOf 120 (1/8) 0 48).primer_sequence_length_steps = 0 ∧
    (windowResultOf 120 (1/8) 0 48).generation_length_steps = 48 ∧
    (windowResultOf 120 (1/8) 0 48).generationWindow = ⟨0, 6⟩ := by
  refine ⟨computeWindows_scenarioA, rfl, ?_, ?_, ?_⟩ <;>
    norm_num [windowResultOf, primer_sequence_length_time,
      primer_sequence_length_steps, generation_length_time,
      generation_length_steps, generation_start_time, generation_end_time,
      primer_end_time, primer_start_time, primer_end_adjust, Window.mk.injEq]


/-- Helper: when the primer total time is nonnegative and seconds-per-step
is at least the 1e-5 epsilon, the primer window end is nonnegative. -/
theorem primer_end_time_nonneg (t sps : ℚ) (ht : 0 ≤ t)
    (hsps : 1/100000 ≤ sps) : 0 ≤ primer_end_time t sps := by
  have hsppos : (0:ℚ) < sps := lt_of_lt_of_le (by norm_num) hsps
  have hS0 : (0:ℤ) ≤ primer_sequence_length_steps t sps :=
    Int.ceil_nonneg (div_nonneg ht hsppos.le)
  have hT0 : 0 ≤ primer_sequence_length_time t sps :=
    mul_nonneg (by exact_mod_cast hS0) hsppos.le
  unfold primer_end_time primer_start_time primer_end_adjust
  split_ifs with hTpos
  · have hS1 : (1:ℤ) ≤ primer_sequence_length_steps t sps := by
      by_contra hc
      push_neg at hc
      have hSle : primer_sequence_length_steps t sps ≤ 0 := by omega
      have hTle : primer_sequence_length_time t sps ≤ 0 := by
        unfold primer_sequence_length_time
        exact mul_nonpos_iff.mpr (Or.inr ⟨by exact_mod_cast hSle, hsppos.le⟩)
      linarith
    have hTge : sps ≤ primer_sequence_length_time t sps := by
      unfold primer_sequence_length_time
      exact le_mul_of_one_le_left hsppos.le (by exact_mod_cast hS1)
    linarith
  · linarith

/-- Counterexample to the window-invariant claim: with qpm 60 and
steps_per_quarter 10^7 the seconds-per-step is 10^-7, below the 1e-5
epsilon; a primer of 10^-7 seconds rounds up to one step and the request of
2 total steps is accepted without error, yet the primer window end,
10^-7 - 10^-5, is below the window start 0, and the generation window
starts below 0. -/
theorem tiny_seconds_per_step_negative_window :
    computeWindows ⟨[], 1/10000000⟩ 2 10000000 60
      = Except.ok (windowResultOf 60 (1/10000000) (1/10000000) 2) ∧
    (windowResultOf 60 (1/10000000) (1/10000000) 2).primerWindow.end_time
      < (windowResultOf 60 (1/10000000) (1/10000000) 2).primerWindow.start_time ∧
    (windowResultOf 60 (1/10000000) (1/10000000) 2).generationWindow.start_time
      < 0 := by
  refine ⟨?_, ?_, ?_⟩ <;>
    norm_num [computeWindows, effectiveQpm, secondsPerStep, calcWindows,
      windowResultOf, generation_length_steps, primer_sequence_length_steps,
      primer_sequence_length_time, primer_end_adjust, primer_start_time,
      primer_end_time, generation_length_time, generation_start_time,
      generation_end_time]

/-- C9 amended: for any accepted input whose primer total time is
nonnegative, provided seconds_per_step is at least the 1e-5 epsilon, both
computed windows satisfy 0 <= start_time and start_time <= end_time. The
extra proviso is forced: when seconds_per_step is below the epsilon and the
primer is nonempty, the primer window end goes below its start. -/
theorem windows_nonneg_ordered (primer : NoteSeq)
    (total_length_steps steps_per_quarter : ℤ) (qpm0 : ℚ) (r : WindowResult)
    (h : computeWindows primer total_length_steps steps_per_quarter qpm0
      = Except.ok r)
    (ht : 0 ≤ primer.total_time)
    (hsps : 1/100000 ≤ r.seconds_per_step) :
    0 ≤ r.primerWindow.start_time ∧
    r.primerWindow.start_time ≤ r.primerWindow.end_time ∧
    0 ≤ r.generationWindow.start_time ∧
    r.generationWindow.start_time ≤ r.generationWindow.end_time := by
  obtain ⟨qpm, sps, hq, hs, hg, hr⟩ :=
    computeWindows_ok_elim primer total_length_steps steps_per_quarter qpm0 r h
  subst hr
  simp only [windowResultOf] at hsps ⊢
  have hsppos : (0:ℚ) < sps := lt_of_lt_of_le (by norm_num) hsps
  have hend := primer_end_time_nonneg primer.total_time sps ht hsps
  have hGpos : 0 < generation_length_time total_length_steps primer.total_time sps := by
    unfold generation_length_time
    have hgq : (0:ℚ) < (generation_length_steps total_length_steps
        primer.total_time sps : ℚ) := by exact_mod_cast hg
    exact mul_pos hgq hsppos
  have hA : 0 ≤ primer_end_adjust primer.total_time sps := by
    unfold primer_end_adjust
    split_ifs <;> norm_num
  refine ⟨by norm_num [primer_start_time], ?_, ?_, ?_⟩
  · simpa [primer_start_time] using hend
  · simpa [generation_start_time] using hend
  · unfold generation_end_time
    linarith

/-- Witness: at the Scenario B input both windows are ordered with
nonnegative starts; here the generation window start does not exceed its
end. -/
theorem windows_nonneg_ordered_witness :
    (windowResultOf 120 (1/8) 2 64).generationWindow.start_time
      ≤ (windowResultOf 120 (1/8) 2 64).generationWindow.end_time :=
  (windows_nonneg_ordered ⟨[], 2⟩ 64 4 120 (windowResultOf 120 (1/8) 2 64)
    computeWindows_scenarioB (by norm_num)
    (by norm_num [windowResultOf])).2.2.2

/-- C10: whenever generate succeeds, the sequence it returns is exactly the
sequence produced by the external generator on the primer and the assembled
options (whose generate_section is the computed generation window), and the
persisted midi artifact is that very sequence, written exactly once under
the given filename before the function returns. -/
theorem generate_returns_generator_output
    (generator_generate : NoteSeq → GeneratorOptions → NoteSeq)
    (midi_filename : String) (total_length_steps steps_per_quarter : ℤ)
    (primer_sequence : NoteSeq) (qpm : ℚ)
    (condition_on_primer inject_primer_during_generation : Bool)
    (temperature : ℚ) (beam_size branch_factor steps_per_iteration : ℤ)
    (r : WindowResult) (res : GenerateResult)
    (hw : computeWindows primer_sequence total_length_steps steps_per_quarter qpm
      = Except.ok r)
    (h : generate generator_generate midi_filename total_length_steps
        steps_per_quarter primer_sequence qpm condition_on_primer
        inject_primer_during_generation temperature beam_size branch_factor
        steps_per_iteration = Except.ok res) :
    res.returned = generator_generate primer_sequence
      { temperature := temperature
        beam_size := beam_size
        branch_factor := branch_factor
        steps_per_iteration := steps_per_iteration
        condition_on_primer := condition_on_primer
        no_inject_primer_during_generation := !inject_primer_during_generation
        generate_section := r.generationWindow } ∧
    res.written = [(midi_filename, res.returned)] := by
  unfold generate at h
  rw [hw] at h
  injection h with h2
  subst h2
  exact ⟨rfl, rfl⟩

/-- Witness: with the identity generator, an empty primer and the Scenario A
time base, generate returns the generator's output unchanged and records
exactly one written artifact containing it. -/
theorem generate_returns_generator_output_witness :
    (GenerateResult.mk [("primer.mid", NoteSeq.mk [] 0)] (NoteSeq.mk [] 0)).returned
      = NoteSeq.mk [] 0 ∧
    (GenerateResult.mk [("primer.mid", NoteSeq.mk [] 0)] (NoteSeq.mk [] 0)).written
      = [("primer.mid",
          (GenerateResult.mk [("primer.mid", NoteSeq.mk [] 0)]
            (NoteSeq.mk [] 0)).returned)] :=
  generate_returns_generator_output (fun s _ => s) "primer.mid" 48 4
    (NoteSeq.mk [] 0) 120 false true 1 1 1 1 (windowResultOf 120 (1/8) 0 48)
    (GenerateResult.mk [("primer.mid", NoteSeq.mk [] 0)] (NoteSeq.mk [] 0))
    computeWindows_scenarioA
    (by unfold generate; rw [computeWindows_scenarioA])

/-- C5: the schedule data of VII.py lines 201-214 chains the stages (each
later stage's primer filename is the previous stage's output filename), and
the loop of lines 216-238 would invoke generate once per stage; but the
conditions list literal of line 211 names FoTheTrue, which is bound nowhere
at module scope, so its evaluation raises NameError while the module loads,
before the first stage starts: the orchestration never runs. -/
theorem schedule_chained_but_conditions_fail :
    conditions = none ∧ primers.drop 1 = filenames.take 5 := by
  constructor
  · rfl
  · rfl

end VII
